import Mathlib

/-!
Shallow embedding of the editor-extension bridge:
`src/extensions/common/api.py` (ExtensionAPI: outbound protocol, block stack,
payload loading) and `src/extensions/default.py` (context assembly, message
construction, LLM streaming bridge).

Python strings become `String`, optional values become `Option`, the outbound
line-delimited protocol becomes a list of `Event`s, exceptions become an `Err`
value, and the mutable `_blocks` list on the API object becomes an explicit
`ApiState` threaded through the functions that can touch it.
-/

namespace AiEditor

/-- ASCII whitespace recognised by Python's default `str.strip()`. -/
def pyIsSpace (c : Char) : Bool :=
  c = ' ' || c = '\t' || c = '\n' || c = '\r' || c = '\x0b' || c = '\x0c'

/-- Python `str.strip()`: drop leading and trailing whitespace. -/
def pyStrip (s : String) : String :=
  ⟨((s.data.dropWhile pyIsSpace).reverse.dropWhile pyIsSpace).reverse⟩

/-- Truthiness of an optional Python string: `None` and `""` are falsy. -/
def pyTruthy : Option String → Bool
  | none => false
  | some s => s != ""

/-- One outbound protocol record, as produced by `ExtensionAPI._dump`. -/
inductive Event where
  | pushChat (content : String)
  | applyDiff (patch : List String) (matchPairs : List (List Int))
  | terminateChat
  | log (content : String)
  deriving DecidableEq

/-- Python exceptions that the embedded code can raise. -/
inductive Err where
  | keyError (field : String)
  | fileNotFoundError (path : String)
  | typeError (msg : String)
  | assertionError
  deriving DecidableEq

/-- The `TAGS` lookup table of `common/api.py`; a missing key is a `KeyError`. -/
def TAGS : String → Option String
  | "think" => some "collapse"
  | "meta" => some "metadata"
  | _ => none

/-- The mutable part of `ExtensionAPI`: the `_blocks` stack of open tags. -/
structure ApiState where
  blocks : List String
  deriving DecidableEq

/-- `ExtensionAPI.push_to_chat`: dump a `push_chat` record; no state change. -/
def push_to_chat (content : String) (s : ApiState) : List Event × ApiState :=
  ([Event.pushChat content], s)

/-- `ExtensionAPI.terminate_chat`: dump a `terminate_chat` record. -/
def terminate_chat (s : ApiState) : List Event × ApiState :=
  ([Event.terminateChat], s)

/-- `ExtensionAPI.log`: dump a `log` record. -/
def logEvent (content : String) (s : ApiState) : List Event × ApiState :=
  ([Event.log content], s)

/-- `ExtensionAPI.start_block`: look the type up in `TAGS`, emit the open tag
and push it onto `_blocks`. An unknown type raises `KeyError`. -/
def start_block (type_ : String) (s : ApiState) :
    Except Err (List Event × ApiState) :=
  match TAGS type_ with
  | none => Except.error (Err.keyError type_)
  | some tag =>
      Except.ok ([Event.pushChat ("<" ++ tag ++ ">")], ⟨s.blocks ++ [tag]⟩)

/-- `ExtensionAPI.end_block`: assert `_blocks` is non-empty, pop the last tag
and emit its close tag. -/
def end_block (s : ApiState) : Except Err (List Event × ApiState) :=
  match s.blocks.getLast? with
  | none => Except.error Err.assertionError
  | some tag =>
      Except.ok ([Event.pushChat ("</" ++ tag ++ ">")], ⟨s.blocks.dropLast⟩)

/-- The `delta` of one upstream chunk: optional reasoning and content text. -/
structure Delta where
  reasoning : Option String
  content : Option String
  deriving DecidableEq

/-- One upstream stream chunk: a delta plus optional usage statistics
(`usage.prompt_tokens` when present). -/
structure Chunk where
  delta : Delta
  usage : Option Nat
  deriving DecidableEq

/-- The usage-metadata line emitted by `call_llm` when `chunk.usage` is set. -/
def usageMeta (model : String) (prompt_tokens : Nat) : String :=
  "\n<metadata> number of tokens used in prompt: " ++ toString prompt_tokens ++
    " model: " ++ model ++ " </metadata>\n"

/-- One iteration of the `for chunk in stream` loop of `call_llm`: the
reasoning branch, then the content branch, then the usage branch, threading
the `thinking` flag and the api state through the `push_to_chat` calls. -/
def chunkStep (model : String) (c : Chunk) (thinking : Bool) (s : ApiState) :
    List Event × Bool × ApiState :=
  let step₁ : List Event × Bool × ApiState :=
    if pyTruthy c.delta.reasoning then
      let opened := if thinking then ([], s) else push_to_chat "<collapse>" s
      let pushed := push_to_chat (c.delta.reasoning.getD "") opened.2
      (opened.1 ++ pushed.1, true, pushed.2)
    else ([], thinking, s)
  let step₂ : List Event × Bool × ApiState :=
    if pyTruthy c.delta.content then
      let closed :=
        if step₁.2.1 then push_to_chat "</collapse>" step₁.2.2
        else ([], step₁.2.2)
      let pushed := push_to_chat (c.delta.content.getD "") closed.2
      (step₁.1 ++ closed.1 ++ pushed.1, false, pushed.2)
    else step₁
  match c.usage with
  | some pt =>
      let pushed := push_to_chat (usageMeta model pt) step₂.2.2
      (step₂.1 ++ pushed.1, step₂.2.1, pushed.2)
  | none => step₂

/-- The whole `for` loop of `call_llm` over the remaining chunks. -/
def call_llm_loop (model : String) : Bool → List Chunk → ApiState →
    List Event × ApiState
  | _, [], s => ([], s)
  | thinking, c :: rest, s =>
      let st := chunkStep model c thinking s
      let next := call_llm_loop model st.2.1 rest st.2.2
      (st.1 ++ next.1, next.2)

/-- `call_llm` of `default.py`: run the loop with `thinking = False`, then
`api.terminate_chat()`.  (The network call itself is external; the chunk
sequence it yields is a parameter.) -/
def call_llm (model : String) (stream : List Chunk) (s : ApiState) :
    List Event × ApiState :=
  let looped := call_llm_loop model false stream s
  let fin := terminate_chat looped.2
  (looped.1 ++ fin.1, fin.2)

/-- The `thinking` flag after one loop iteration (reasoning branch first,
then content branch, as in the source). -/
def thinkingStep (c : Chunk) (th : Bool) : Bool :=
  if pyTruthy c.delta.content then false
  else if pyTruthy c.delta.reasoning then true
  else th

/-- The events emitted by one loop iteration, as a pure function. -/
def chunkEvents (model : String) (c : Chunk) (th : Bool) : List Event :=
  (if pyTruthy c.delta.reasoning then
    (if th then [] else [Event.pushChat "<collapse>"]) ++
      [Event.pushChat (c.delta.reasoning.getD "")]
   else []) ++
  (if pyTruthy c.delta.content then
    (if (if pyTruthy c.delta.reasoning then true else th) then
      [Event.pushChat "</collapse>"] else []) ++
      [Event.pushChat (c.delta.content.getD "")]
   else []) ++
  (match c.usage with
   | some pt => [Event.pushChat (usageMeta model pt)]
   | none => [])

/-- The events emitted by the whole loop, as a pure function. -/
def streamEvents (model : String) : Bool → List Chunk → List Event
  | _, [] => []
  | th, c :: rest => chunkEvents model c th ++ streamEvents model (thinkingStep c th) rest

/-- The `thinking` flag when the upstream sequence is exhausted. -/
def finalThinking : Bool → List Chunk → Bool
  | th, [] => th
  | th, c :: rest => finalThinking (thinkingStep c th) rest

/-- A `File` of `common/api.py`: the repository-relative `path` plus the
filesystem path `f'{repo_path}/{path}'`. -/
structure File where
  path : String
  fs_path : String
  deriving DecidableEq

/-- The `File` constructor `File(path, repo_path)`. -/
def File.make (path repo_path : String) : File :=
  ⟨path, repo_path ++ "/" ++ path⟩

/-- `File.get_content`: read the file at `fs_path`; a missing file raises
`FileNotFoundError`.  The filesystem is modelled as a map from paths to
contents. -/
def File.get_content (fs : String → Option String) (f : File) :
    Except Err String :=
  match fs f.fs_path with
  | some content => Except.ok content
  | none => Except.error (Err.fileNotFoundError f.fs_path)

/-- A chat `Message` (`role`/`content`).  Under this representation
`Message.to_dict` is the identity, so the role-tagged dicts sent to the
model are also `Message`s. -/
structure Message where
  role : String
  content : String
  deriving DecidableEq

/-- The single-quote character. -/
def pySingleQuote : Char := Char.ofNat 39

/-- Quote character chosen by Python `repr` for a string: double quotes
when the string contains a single quote but no double quote. -/
def pyQuoteChar (s : String) : Char :=
  if s.contains pySingleQuote && !(s.contains '"') then '"' else pySingleQuote

/-- Escaping of one character inside a Python `repr` string (modelled for
printable content: backslash, the quote character, and the common control
characters). -/
def pyEscapeChar (q c : Char) : String :=
  if c = '\\' then "\\\\"
  else if c = q then "\\" ++ String.singleton q
  else if c = '\n' then "\\n"
  else if c = '\r' then "\\r"
  else if c = '\t' then "\\t"
  else String.singleton c

/-- Python `repr` of a string. -/
def pyReprStr (s : String) : String :=
  let q := pyQuoteChar s
  String.singleton q ++ String.join (s.data.map (pyEscapeChar q)) ++
    String.singleton q

/-- Python `str` of a list of strings, as interpolated by an f-string:
`repr` of each element, comma-separated, inside square brackets. -/
def pyReprStrList (xs : List String) : String :=
  "[" ++ String.intercalate ", " (xs.map pyReprStr) ++ "]"

/-- `_format_code_block` of `default.py`. -/
def _format_code_block (content : String) : String :=
  "```\n" ++ content ++ "\n```"

/-- `_format_section` of `default.py`. -/
def _format_section (title : String) (content : String) : String :=
  "## " ++ title ++ "\n\n" ++ content

/-- The `ExtensionAPI` attributes set by `load` (its immutable part; the
mutable `_blocks` stack is `ApiState`). -/
structure ExtensionAPI where
  current_file_content : String
  selection : Option String
  cursor_row : Int
  cursor_column : Int
  api_key : String
  api_url : String
  prompt : String
  terminal_history : Option String
  terminal_snapshot : Option (List String)
  repo_path : String
  current_file : File
  edit_file : Option File
  repo_files : List File
  opened_files : List File
  chat_history : List Message
  deriving DecidableEq

/-- The opened-files metadata line pushed by `build_context`. -/
def openedFilesMeta (api : ExtensionAPI) : String :=
  "\n<metadata> Opened Files: " ++
    pyReprStrList (api.opened_files.map File.path) ++ " </metadata>\n"

/-- The current-file metadata line pushed by `build_context`. -/
def currentFileMeta (api : ExtensionAPI) : String :=
  "\n<metadata> Current File: " ++ api.current_file.path ++ " </metadata>\n"

/-- One entry of the opened-files list comprehension in `build_context`. -/
def openedFileEntry (f : File) (content : String) : String :=
  "Path: `" ++ f.path ++ "`\n\n" ++ _format_code_block content

/-- The opened-files list comprehension: read each opened file left to
right; the first missing file raises. -/
def renderOpenedFiles (fs : String → Option String) :
    List File → Except Err (List String)
  | [] => Except.ok []
  | f :: rest =>
      match File.get_content fs f with
      | Except.error e => Except.error e
      | Except.ok content =>
          match renderOpenedFiles fs rest with
          | Except.error e => Except.error e
          | Except.ok others => Except.ok (openedFileEntry f content :: others)

/-- The "Current File" section of the context. -/
def currentFileSection (api : ExtensionAPI) : String :=
  _format_section "Current File"
    ("Here is the file I\x27m looking at (`" ++ api.current_file.path ++
      "`):\n\n" ++ _format_code_block api.current_file_content)

/-- The "Selection" section of the context. -/
def selectionSection (sel : String) : String :=
  _format_section "Selection"
    ("This is the code snippet that I\x27m referring to\n\n" ++
      _format_code_block sel)

/-- Truthiness of `api.selection and api.selection.strip()`. -/
def selectionTruthy (sel : Option String) : Bool :=
  match sel with
  | none => false
  | some s => (s != "") && (pyStrip s != "")

/-- `build_context` of `default.py`: the metadata events pushed along the
way, the section list, and the joined context string.  A failing file read
raises before any event is pushed. -/
def build_context (fs : String → Option String) (api : ExtensionAPI) :
    Except Err (List Event × List String × String) :=
  let step₁ : Except Err (List String) :=
    if api.opened_files.isEmpty then Except.ok []
    else
      match renderOpenedFiles fs api.opened_files with
      | Except.error e => Except.error e
      | Except.ok rendered =>
          Except.ok [_format_section "Other relevant files"
            (String.intercalate "\n\n" rendered)]
  match step₁ with
  | Except.error e => Except.error e
  | Except.ok sections₁ =>
      let events₁ := [Event.pushChat (openedFilesMeta api)]
      let sections₂ := sections₁ ++ [currentFileSection api]
      let events₂ := events₁ ++ [Event.pushChat (currentFileMeta api)]
      let sections₃ := sections₂ ++
        (if selectionTruthy api.selection then
          [selectionSection (api.selection.getD "")] else [])
      Except.ok (events₂, sections₃, String.intercalate "\n\n" sections₃)

/-- The body of the `get_system_prompt` f-string after the interpolated
model name.  Literal braces are written `\x7b`/`\x7d`; the `â...` runs
are the (mojibake) characters present verbatim in the source. -/
def systemPromptBody : String :=
  ". You are happy to help answer any questions that the user has (usually they will be about coding).\n\n1. When the user is asking for edits to their code, please output a simplified version of the code block that highlights the changes necessary and adds comments to indicate where unchanged code has been skipped. For example:\n\n```language:path/to/file\n// ... existing code ...\n\x7b edit_1 \x7d\n// ... existing code ...\n\x7b edit_2 \x7d\n// ... existing code ...\n```\n\nThe user can see the entire file, so they prefer to only read the updates to the code. Often this will mean that the start/end of the file will be skipped, but that\x27s okay! Rewrite the entire file only if specifically requested. Always provide a brief explanation of the updates, unless the user specifically requests only the code.\n\nThese edit codeblocks are also read by a less intelligent language model, colloquially called the apply model, to update the file. To help specify the edit to the apply model, you will be very careful when generating the codeblock to not introduce ambiguity. You will specify all unchanged regions (code and comments) of the file with â\u0080\u009c// â\u0080¦ existing code â\u0080¦â\u0080\u009d comment markers. This will ensure the apply model will not delete existing unchanged code or comments when editing the file. You will not mention the apply model.\n\n2. Do not lie or make up facts.\n\n3. Format your response in markdown.\n\n4. When writing out new code blocks, please specify the language ID after the initial backticks, like so: \n\n```python\n\x7b code \x7d\n```\n\n5. When writing out code blocks for an existing file, please also specify the file path after the initial backticks and restate the method / class your codeblock belongs to, like so:\n\n```language:some/other/file\nfunction AIChatHistory() \x7b\n    ...\n    \x7b code \x7d\n    ...\n\x7d\n```\n"

/-- `get_system_prompt` of `default.py`: the f-string, `.strip()`ed. -/
def get_system_prompt (model : String) : String :=
  pyStrip ("\nYou are an intelligent programmer, powered by " ++ model ++
    systemPromptBody)

/-- The model name selected in `extension`. -/
def theModel : String := "anthropic/claude-sonnet-4"

/-- The `messages` list built by `extension`: the escape branch when the
stripped prompt starts with the `/` marker, else the context branch.  (The
source also computes a stripped directive from the escape prompt; it is
unused there, and omitted here.) -/
def extensionMessages (model : String) (api : ExtensionAPI)
    (context : String) : List Message :=
  if (pyStrip api.prompt).startsWith "/" then
    [⟨"system", get_system_prompt model⟩] ++ api.chat_history ++
      [⟨"user", api.prompt⟩]
  else
    [⟨"system", get_system_prompt model⟩, ⟨"user", context⟩] ++
      api.chat_history ++ [⟨"user", api.prompt⟩]

/-- The request handed to the chat-completion client. -/
structure LlmRequest where
  model : String
  messages : List Message
  deriving DecidableEq

/-- The observable outcome of one invocation: events emitted (kept even
when an exception follows, since they were already flushed), the final api
state, the model request if one was made, and the uncaught exception if
one was raised. -/
structure RunResult where
  events : List Event
  state : ApiState
  request : Option LlmRequest
  err : Option Err
  deriving DecidableEq

/-- `extension` of `default.py`: build the context (emitting its metadata
events), build the messages, log twice, join the terminal snapshot (a
`TypeError` when it is `None`), log it, then stream from the model. -/
def extension (fs : String → Option String) (stream : List Chunk)
    (api : ExtensionAPI) (s : ApiState) : RunResult :=
  match build_context fs api with
  | Except.error e => ⟨[], s, none, some e⟩
  | Except.ok (ctxEvents, _sections, context) =>
      let messages := extensionMessages theModel api context
      let logEvents := [Event.log ("messages " ++ toString messages.length),
                        Event.log ("prompt " ++ api.prompt)]
      match api.terminal_snapshot with
      | none =>
          ⟨ctxEvents ++ logEvents, s, none,
            some (Err.typeError "can only join an iterable")⟩
      | some snap =>
          let logEvents₂ := logEvents ++
            [Event.log ("## Terminal " ++ String.intercalate "\n" snap)]
          let streamed := call_llm theModel stream s
          ⟨ctxEvents ++ logEvents₂ ++ streamed.1, streamed.2,
            some ⟨theModel, messages⟩, none⟩

/-- The inbound invocation payload: each key of the host-supplied kwargs,
`none` when the key is absent.  For keys whose present value may itself be
Python `None`, the inner type is again an `Option`.  Chat-history entries
are taken as well-formed role/content pairs. -/
structure Payload where
  current_file_content : Option String
  selection : Option (Option String)
  cursor_row : Option Int
  cursor_column : Option Int
  api_key : Option String
  api_url : Option String
  prompt : Option String
  terminal_history : Option (Option String)
  terminal_snapshot : Option (Option (List String))
  repo_path : Option String
  current_file : Option String
  edit_file : Option String
  repo : Option (List String)
  opened_files : Option (List String)
  chat_history : Option (List Message)
  deriving DecidableEq

/-- `ExtensionAPI.load`: read the kwargs in source order.  A required key
read with `kwargs[...]` raises `KeyError` naming the key when absent;
`terminal_history`/`terminal_snapshot` are read with `kwargs.get(..., None)`
and `edit_file` behind an `in` test, so their absence is tolerated. -/
def load (p : Payload) : Except Err ExtensionAPI :=
  match p.current_file_content with
  | none => Except.error (Err.keyError "current_file_content")
  | some current_file_content =>
  match p.selection with
  | none => Except.error (Err.keyError "selection")
  | some selection =>
  match p.cursor_row with
  | none => Except.error (Err.keyError "cursor_row")
  | some cursor_row =>
  match p.cursor_column with
  | none => Except.error (Err.keyError "cursor_column")
  | some cursor_column =>
  match p.api_key with
  | none => Except.error (Err.keyError "api_key")
  | some api_key =>
  match p.api_url with
  | none => Except.error (Err.keyError "api_url")
  | some api_url =>
  match p.prompt with
  | none => Except.error (Err.keyError "prompt")
  | some prompt =>
  match p.repo_path with
  | none => Except.error (Err.keyError "repo_path")
  | some repo_path =>
  match p.current_file with
  | none => Except.error (Err.keyError "current_file")
  | some current_file =>
  match p.repo with
  | none => Except.error (Err.keyError "repo")
  | some repo =>
  match p.opened_files with
  | none => Except.error (Err.keyError "opened_files")
  | some opened_files =>
  match p.chat_history with
  | none => Except.error (Err.keyError "chat_history")
  | some chat_history =>
  Except.ok ⟨current_file_content, selection, cursor_row, cursor_column,
    api_key, api_url, prompt, p.terminal_history.join,
    p.terminal_snapshot.join, repo_path,
    File.make current_file repo_path,
    p.edit_file.map (fun q => File.make q repo_path),
    repo.map (fun q => File.make q repo_path),
    opened_files.map (fun q => File.make q repo_path), chat_history⟩

/-- The first required key missing from a payload, in the order `load`
reads them; `none` when all required keys are present. -/
def firstMissingRequired (p : Payload) : Option String :=
  if p.current_file_content.isNone then some "current_file_content"
  else if p.selection.isNone then some "selection"
  else if p.cursor_row.isNone then some "cursor_row"
  else if p.cursor_column.isNone then some "cursor_column"
  else if p.api_key.isNone then some "api_key"
  else if p.api_url.isNone then some "api_url"
  else if p.prompt.isNone then some "prompt"
  else if p.repo_path.isNone then some "repo_path"
  else if p.current_file.isNone then some "current_file"
  else if p.repo.isNone then some "repo"
  else if p.opened_files.isNone then some "opened_files"
  else if p.chat_history.isNone then some "chat_history"
  else none

/-- One whole invocation: `load` the payload, then run `extension`. -/
def run_invocation (fs : String → Option String) (stream : List Chunk)
    (p : Payload) (s : ApiState) : RunResult :=
  match load p with
  | Except.error e => ⟨[], s, none, some e⟩
  | Except.ok api => extension fs stream api s

/-- A small concrete filesystem for witnesses. -/
def fsW : String → Option String := fun p =>
  if p = "repo/util.py" then some "def util():\n    pass" else none

/-- A concrete snapshot for witnesses: one opened file, a selection, a
terminal snapshot present. -/
def apiW : ExtensionAPI :=
  ⟨"print(1)\n", some "print(1)", 0, 0, "k", "https://api", "explain this",
   none, some ["$ ls"], "repo", File.make "main.py" "repo", none,
   [File.make "main.py" "repo", File.make "util.py" "repo"],
   [File.make "util.py" "repo"], [⟨"user", "hi"⟩, ⟨"assistant", "hello"⟩]⟩

/-- Like `apiW` but with the terminal snapshot absent. -/
def apiWNoTerminal : ExtensionAPI :=
  ⟨"print(1)\n", some "print(1)", 0, 0, "k", "https://api", "explain this",
   none, none, "repo", File.make "main.py" "repo", none,
   [File.make "main.py" "repo", File.make "util.py" "repo"],
   [File.make "util.py" "repo"], [⟨"user", "hi"⟩, ⟨"assistant", "hello"⟩]⟩

/-- A payload whose only missing required key is `api_key`. -/
def payloadMissingKey : Payload :=
  ⟨some "print(1)\n", some (some "print(1)"), some 0, some 0, none,
   some "https://api", some "explain this", none, some (some ["$ ls"]),
   some "repo", some "main.py", none, some ["main.py"], some [],
   some [⟨"user", "hi"⟩]⟩

/-- Like `apiW` but with no opened files at all. -/
def apiWEmptyOpened : ExtensionAPI :=
  ⟨"print(1)\n", some "print(1)", 0, 0, "k", "https://api", "explain this",
   none, some ["$ ls"], "repo", File.make "main.py" "repo", none,
   [File.make "main.py" "repo"], [], [⟨"user", "hi"⟩]⟩

/-- Like `apiW` but whose second opened file is missing from `fsW`. -/
def apiWMissingOpened : ExtensionAPI :=
  ⟨"print(1)\n", some "print(1)", 0, 0, "k", "https://api", "explain this",
   none, some ["$ ls"], "repo", File.make "main.py" "repo", none,
   [File.make "main.py" "repo"],
   [File.make "util.py" "repo", File.make "gone.py" "repo"],
   [⟨"user", "hi"⟩]⟩

/-- The successful assembler output on `apiW`. -/
def bcW : List Event × List String × String :=
  (build_context fsW apiW).toOption.getD ([], [], "")

/-- The successful assembler output on `apiWNoTerminal`. -/
def bcWNoTerminal : List Event × List String × String :=
  (build_context fsW apiWNoTerminal).toOption.getD ([], [], "")

/-- The successful assembler output on `apiWEmptyOpened`. -/
def bcWEmpty : List Event × List String × String :=
  (build_context fsW apiWEmptyOpened).toOption.getD ([], [], "")

end AiEditor

namespace AiEditor

theorem chunkStep_eq (model : String) (c : Chunk) (th : Bool) (s : ApiState) :
    chunkStep model c th s = (chunkEvents model c th, thinkingStep c th, s) := by
  cases hr : pyTruthy c.delta.reasoning <;>
    cases hc : pyTruthy c.delta.content <;>
      cases hu : c.usage <;>
        cases th <;>
          simp [chunkStep, chunkEvents, thinkingStep, push_to_chat, hr, hc, hu]

theorem call_llm_loop_eq (model : String) (chunks : List Chunk) :
    ∀ (th : Bool) (s : ApiState),
      call_llm_loop model th chunks s = (streamEvents model th chunks, s) := by
  induction chunks with
  | nil => intro th s; rfl
  | cons c rest ih =>
      intro th s
      simp [call_llm_loop, streamEvents, chunkStep_eq, ih]

theorem call_llm_eq (model : String) (chunks : List Chunk) (s : ApiState) :
    call_llm model chunks s =
      (streamEvents model false chunks ++ [Event.terminateChat], s) := by
  simp [call_llm, terminate_chat, call_llm_loop_eq]

theorem ne_of_data_get3 {a b : String} (h : a.data[3]? ≠ b.data[3]?) :
    a ≠ b :=
  fun he => h (by rw [he])

theorem selectionSection_data_get3 (sel : String) :
    (selectionSection sel).data[3]? = some 'S' := by
  have e : selectionSection sel =
      "## Selection\n\n" ++
        ("This is the code snippet that I\x27m referring to\n\n" ++
          _format_code_block sel) := rfl
  rw [e, String.data_append, List.getElem?_append_left (by decide)]
  rfl

theorem currentFileSection_data_get3 (api : ExtensionAPI) :
    (currentFileSection api).data[3]? = some 'C' := by
  have e : currentFileSection api =
      "## Current File\n\n" ++
        ("Here is the file I\x27m looking at (`" ++ api.current_file.path ++
          "`):\n\n" ++ _format_code_block api.current_file_content) := rfl
  rw [e, String.data_append, List.getElem?_append_left (by decide)]
  rfl

theorem otherFilesSection_data_get3 (j : String) :
    (_format_section "Other relevant files" j).data[3]? = some 'O' := by
  have e : _format_section "Other relevant files" j =
      "## Other relevant files\n\n" ++ j := rfl
  rw [e, String.data_append, List.getElem?_append_left (by decide)]
  rfl

theorem selectionTruthy_iff (sel : Option String) :
    selectionTruthy sel = true ↔ ∃ s, sel = some s ∧ pyStrip s ≠ "" := by
  cases sel with
  | none => simp [selectionTruthy]
  | some s =>
      simp only [selectionTruthy, Bool.and_eq_true, bne_iff_ne, ne_eq]
      constructor
      · rintro ⟨-, h2⟩
        exact ⟨s, rfl, h2⟩
      · rintro ⟨t, ht, h2⟩
        cases ht
        refine ⟨?_, h2⟩
        intro he
        exact h2 (by rw [he]; rfl)

theorem build_context_ok (fs : String → Option String) (api : ExtensionAPI)
    (evts : List Event) (secs : List String) (ctx : String)
    (h : build_context fs api = Except.ok (evts, secs, ctx)) :
    evts = [Event.pushChat (openedFilesMeta api),
            Event.pushChat (currentFileMeta api)] ∧
    ∃ first : List String,
      (first = [] ∨ ∃ rendered, first =
        [_format_section "Other relevant files"
          (String.intercalate "\n\n" rendered)]) ∧
      secs = first ++ [currentFileSection api] ++
        (if selectionTruthy api.selection then
          [selectionSection (api.selection.getD "")] else []) ∧
      ctx = String.intercalate "\n\n" secs := by
  by_cases hemp : api.opened_files.isEmpty = true
  · simp only [build_context, hemp, if_true] at h
    simp only [Except.ok.injEq, Prod.mk.injEq] at h
    obtain ⟨h1, h2, h3⟩ := h
    refine ⟨h1.symm, [], Or.inl rfl, ?_, ?_⟩
    · rw [← h2]
    · rw [← h3, ← h2]
  · simp only [build_context, hemp, if_false, Bool.false_eq_true] at h
    cases hr : renderOpenedFiles fs api.opened_files with
    | error e => rw [hr] at h; exact absurd h (by simp)
    | ok rendered =>
        rw [hr] at h
        simp only [Except.ok.injEq, Prod.mk.injEq] at h
        obtain ⟨h1, h2, h3⟩ := h
        refine ⟨h1.symm,
          [_format_section "Other relevant files"
            (String.intercalate "\n\n" rendered)],
          Or.inr ⟨rendered, rfl⟩, ?_, ?_⟩
        · rw [← h2]
        · rw [← h3, ← h2]

theorem renderOpenedFiles_error (fs : String → Option String) (f : File)
    (post : List File) :
    ∀ pre : List File, (∀ g ∈ pre, (fs g.fs_path).isSome) →
      fs f.fs_path = none →
      renderOpenedFiles fs (pre ++ f :: post) =
        Except.error (Err.fileNotFoundError f.fs_path) := by
  intro pre
  induction pre with
  | nil =>
      intro _ hf
      simp [renderOpenedFiles, File.get_content, hf]
  | cons g rest ih =>
      intro hall hf
      obtain ⟨c, hc⟩ := Option.isSome_iff_exists.mp (hall g (by simp))
      have hrest := ih (fun x hx => hall x (by simp [hx])) hf
      simp [renderOpenedFiles, File.get_content, hc, hrest]

/-- Claim C1 (code bug): on the delta sequence `[reasoning:"x"]` the stream
is exhausted while still in `THINKING`, yet `call_llm` emits no close-tag
event at all before the terminate event — the collapse block stays open,
although the spec demands a defensive close before terminating. -/
theorem C1_no_defensive_close_at_stream_end :
    finalThinking false [⟨⟨some "x", none⟩, none⟩] = true ∧
    (call_llm theModel [⟨⟨some "x", none⟩, none⟩] ⟨[]⟩).1 =
      [Event.pushChat "<collapse>", Event.pushChat "x",
       Event.terminateChat] ∧
    Event.pushChat "</collapse>" ∉
      (call_llm theModel [⟨⟨some "x", none⟩, none⟩] ⟨[]⟩).1 := by
  refine ⟨rfl, rfl, ?_⟩
  decide

/-- Claim C2: on the five-delta scenario the bridge emits exactly
open-collapse, "Let's ", "think", close-collapse, "Answer: ", "42", the
usage-metadata event naming the prompt-token count and model, then the
terminate event, in that order. -/
theorem C2_reasoning_scenario_events :
    (call_llm theModel
      [⟨⟨some "Let\x27s ", none⟩, none⟩, ⟨⟨some "think", none⟩, none⟩,
       ⟨⟨none, some "Answer: "⟩, none⟩, ⟨⟨none, some "42"⟩, none⟩,
       ⟨⟨none, none⟩, some 10⟩] ⟨[]⟩).1 =
      [Event.pushChat "<collapse>", Event.pushChat "Let\x27s ",
       Event.pushChat "think", Event.pushChat "</collapse>",
       Event.pushChat "Answer: ", Event.pushChat "42",
       Event.pushChat
         "\n<metadata> number of tokens used in prompt: 10 model: anthropic/claude-sonnet-4 </metadata>\n",
       Event.terminateChat] := rfl

/-- Claim C3 (counterexample): the streaming bridge's PLAIN-to-THINKING
transition emits an open-tag event, yet the BlockStack is left empty — the
emitted tag is not pushed onto it, refuting the claim as stated. -/
theorem C3_counterexample :
    Event.pushChat "<collapse>" ∈
      (call_llm theModel [⟨⟨some "x", none⟩, none⟩] ⟨[]⟩).1 ∧
    ((call_llm theModel [⟨⟨some "x", none⟩, none⟩] ⟨[]⟩).2).blocks = [] := by
  decide

/-- Claim C3 (amended): `start_block` pushes exactly the tag it emits onto
the BlockStack and `end_block` closes exactly the tag at the top, popping
it (strict LIFO); but `call_llm` bypasses the BlockStack entirely — its
collapse tags go through raw `push_to_chat` and the stack is unchanged. -/
theorem C3_block_stack_lifo :
    (∀ (type_ tag : String) (s : ApiState), TAGS type_ = some tag →
      start_block type_ s =
        Except.ok ([Event.pushChat ("<" ++ tag ++ ">")],
          ⟨s.blocks ++ [tag]⟩)) ∧
    (∀ (s : ApiState) (tag : String), s.blocks.getLast? = some tag →
      end_block s =
        Except.ok ([Event.pushChat ("</" ++ tag ++ ">")],
          ⟨s.blocks.dropLast⟩)) ∧
    (∀ (model : String) (chunks : List Chunk) (s : ApiState),
      (call_llm model chunks s).2 = s) := by
  refine ⟨?_, ?_, ?_⟩
  · intro type_ tag s h
    simp [start_block, h]
  · intro s tag h
    simp [end_block, h]
  · intro model chunks s
    rw [call_llm_eq]

theorem C3_block_stack_lifo_witness :
    start_block "think" ⟨["metadata"]⟩ =
      Except.ok ([Event.pushChat "<collapse>"], ⟨["metadata", "collapse"]⟩) ∧
    end_block ⟨["metadata", "collapse"]⟩ =
      Except.ok ([Event.pushChat "</collapse>"], ⟨["metadata"]⟩) ∧
    (call_llm "m" [⟨⟨some "x", none⟩, none⟩] ⟨["collapse"]⟩).2 =
      ⟨["collapse"]⟩ :=
  ⟨C3_block_stack_lifo.1 "think" "collapse" ⟨["metadata"]⟩ rfl,
   C3_block_stack_lifo.2.1 ⟨["metadata", "collapse"]⟩ "collapse" rfl,
   C3_block_stack_lifo.2.2 "m" [⟨⟨some "x", none⟩, none⟩] ⟨["collapse"]⟩⟩

/-- Claim C4: the request actually handed to the model carries exactly
`[system, ...history, user(raw prompt)]` when the stripped prompt starts
with the `/` escape, and exactly
`[system, user(assembled context), ...history, user(raw prompt)]`
otherwise. -/
theorem C4_prompt_routing :
    ∀ (fs : String → Option String) (stream : List Chunk)
      (api : ExtensionAPI) (s : ApiState) (evts : List Event)
      (secs : List String) (ctx : String) (snap : List String),
      build_context fs api = Except.ok (evts, secs, ctx) →
      api.terminal_snapshot = some snap →
      (extension fs stream api s).request = some ⟨theModel,
        if (pyStrip api.prompt).startsWith "/" then
          [⟨"system", get_system_prompt theModel⟩] ++ api.chat_history ++
            [⟨"user", api.prompt⟩]
        else
          [⟨"system", get_system_prompt theModel⟩, ⟨"user", ctx⟩] ++
            api.chat_history ++ [⟨"user", api.prompt⟩]⟩ := by
  intro fs stream api s evts secs ctx snap hbc hts
  simp [extension, hbc, hts, extensionMessages]

theorem C4_prompt_routing_witness :
    (extension fsW [] apiW ⟨[]⟩).request = some ⟨theModel,
      if (pyStrip apiW.prompt).startsWith "/" then
        [⟨"system", get_system_prompt theModel⟩] ++ apiW.chat_history ++
          [⟨"user", apiW.prompt⟩]
      else
        [⟨"system", get_system_prompt theModel⟩, ⟨"user", bcW.2.2⟩] ++
          apiW.chat_history ++ [⟨"user", apiW.prompt⟩]⟩ :=
  C4_prompt_routing fsW [] apiW ⟨[]⟩ bcW.1 bcW.2.1 bcW.2.2 ["$ ls"] rfl rfl

/-- Claim C5: the assembled context has a Selection section exactly when
the selection is present and non-empty after stripping; a `None`, empty or
whitespace-only selection contributes no section. -/
theorem C5_selection_section_iff :
    ∀ (fs : String → Option String) (api : ExtensionAPI)
      (evts : List Event) (secs : List String) (ctx : String),
      build_context fs api = Except.ok (evts, secs, ctx) →
      (selectionSection (api.selection.getD "") ∈ secs ↔
        ∃ sel, api.selection = some sel ∧ pyStrip sel ≠ "") := by
  intro fs api evts secs ctx h
  obtain ⟨-, first, hfirst, hsecs, -⟩ := build_context_ok fs api evts secs ctx h
  subst hsecs
  rw [← selectionTruthy_iff]
  by_cases hsel : selectionTruthy api.selection = true
  · simp [hsel]
  · rw [if_neg hsel]
    constructor
    · intro hmem
      exfalso
      rcases List.mem_append.mp hmem with hmem' | hcur
      · rcases List.mem_append.mp hmem' with hfir | hcur
        · rcases hfirst with hfir0 | ⟨rendered, hfir0⟩
          · rw [hfir0] at hfir
            exact absurd hfir (List.not_mem_nil _)
          · rw [hfir0] at hfir
            have heq : selectionSection (api.selection.getD "") =
                _format_section "Other relevant files"
                  (String.intercalate "\n\n" rendered) := by
              simpa using hfir
            exact ne_of_data_get3
              (by rw [selectionSection_data_get3, otherFilesSection_data_get3]
                  decide) heq
        · have heq : selectionSection (api.selection.getD "") =
              currentFileSection api := by simpa using hcur
          exact ne_of_data_get3
            (by rw [selectionSection_data_get3, currentFileSection_data_get3]
                decide) heq
      · exact absurd hcur (List.not_mem_nil _)
    · intro hc
      exact absurd hc hsel

theorem C5_selection_section_iff_witness :
    selectionSection (apiW.selection.getD "") ∈ bcW.2.1 ↔
      ∃ sel, apiW.selection = some sel ∧ pyStrip sel ≠ "" :=
  C5_selection_section_iff fsW apiW bcW.1 bcW.2.1 bcW.2.2 rfl

/-- Claim C6: every successful context assembly pushes exactly two
metadata events — first the opened-files list, then the current file —
independently of the selection branch; an empty `opened_files` still
yields the opened-files metadata event with the empty list. -/
theorem C6_metadata_events :
    ∀ (fs : String → Option String) (api : ExtensionAPI)
      (evts : List Event) (secs : List String) (ctx : String),
      build_context fs api = Except.ok (evts, secs, ctx) →
      evts = [Event.pushChat (openedFilesMeta api),
              Event.pushChat (currentFileMeta api)] ∧
      (api.opened_files = [] →
        openedFilesMeta api = "\n<metadata> Opened Files: [] </metadata>\n") := by
  intro fs api evts secs ctx h
  refine ⟨(build_context_ok fs api evts secs ctx h).1, ?_⟩
  intro he
  unfold openedFilesMeta
  rw [he]
  rfl

theorem C6_metadata_events_witness :
    bcWEmpty.1 = [Event.pushChat (openedFilesMeta apiWEmptyOpened),
      Event.pushChat (currentFileMeta apiWEmptyOpened)] ∧
    (apiWEmptyOpened.opened_files = [] →
      openedFilesMeta apiWEmptyOpened =
        "\n<metadata> Opened Files: [] </metadata>\n") :=
  C6_metadata_events fsW apiWEmptyOpened bcWEmpty.1 bcWEmpty.2.1
    bcWEmpty.2.2 rfl

/-- Claim C7: a payload whose first missing required key is `f` makes the
invocation fail with `KeyError(f)` before any event is emitted and before
any model request is made. -/
theorem C7_missing_required_field :
    ∀ (p : Payload) (f : String) (fs : String → Option String)
      (stream : List Chunk) (s : ApiState),
      firstMissingRequired p = some f →
      run_invocation fs stream p s = ⟨[], s, none, some (Err.keyError f)⟩ := by
  intro p f fs stream s h
  obtain ⟨p1, p2, p3, p4, p5, p6, p7, p8, p9, p10, p11, p12, p13, p14, p15⟩ := p
  simp only [firstMissingRequired] at h
  cases p1 with
  | none => simp at h; subst h; rfl
  | some v1 =>
  cases p2 with
  | none => simp at h; subst h; rfl
  | some v2 =>
  cases p3 with
  | none => simp at h; subst h; rfl
  | some v3 =>
  cases p4 with
  | none => simp at h; subst h; rfl
  | some v4 =>
  cases p5 with
  | none => simp at h; subst h; rfl
  | some v5 =>
  cases p6 with
  | none => simp at h; subst h; rfl
  | some v6 =>
  cases p7 with
  | none => simp at h; subst h; rfl
  | some v7 =>
  cases p10 with
  | none => simp at h; subst h; rfl
  | some v10 =>
  cases p11 with
  | none => simp at h; subst h; rfl
  | some v11 =>
  cases p13 with
  | none => simp at h; subst h; rfl
  | some v13 =>
  cases p14 with
  | none => simp at h; subst h; rfl
  | some v14 =>
  cases p15 with
  | none => simp at h; subst h; rfl
  | some v15 => simp at h

theorem C7_missing_required_field_witness :
    run_invocation fsW [] payloadMissingKey ⟨[]⟩ =
      ⟨[], ⟨[]⟩, none, some (Err.keyError "api_key")⟩ :=
  C7_missing_required_field payloadMissingKey "api_key" fsW [] ⟨[]⟩ rfl

/-- Claim C8 (counterexample): a missing secondary opened file makes the
whole assembler — and the whole invocation — fail: no context is returned,
no events (not even the metadata ones) are emitted, and no model request
is made.  The failure is not recoverable or skippable. -/
theorem C8_counterexample :
    build_context fsW apiWMissingOpened =
      Except.error (Err.fileNotFoundError "repo/gone.py") ∧
    extension fsW [] apiWMissingOpened ⟨[]⟩ =
      ⟨[], ⟨[]⟩, none, some (Err.fileNotFoundError "repo/gone.py")⟩ :=
  ⟨rfl, rfl⟩

/-- Claim C8 (amended): if any opened file cannot be read — the first
unreadable one in list order — `build_context` raises its file-unavailable
error, which aborts the entire assembly and invocation with no events and
no model request.  (The current file's content arrives in the payload, so
the assembler never reads the current file at all.) -/
theorem C8_missing_opened_file_fatal :
    ∀ (fs : String → Option String) (api : ExtensionAPI)
      (pre : List File) (f : File) (post : List File)
      (stream : List Chunk) (s : ApiState),
      api.opened_files = pre ++ f :: post →
      (∀ g ∈ pre, (fs g.fs_path).isSome) →
      fs f.fs_path = none →
      build_context fs api =
        Except.error (Err.fileNotFoundError f.fs_path) ∧
      extension fs stream api s =
        ⟨[], s, none, some (Err.fileNotFoundError f.fs_path)⟩ := by
  intro fs api pre f post stream s ho hpre hf
  have hne : api.opened_files.isEmpty = false := by
    rw [ho]; cases pre <;> simp
  have hr := renderOpenedFiles_error fs f post pre hpre hf
  have hb : build_context fs api =
      Except.error (Err.fileNotFoundError f.fs_path) := by
    rw [build_context, hne]
    simp only [Bool.false_eq_true, if_false]
    rw [ho, hr]
  exact ⟨hb, by simp [extension, hb]⟩

theorem C8_missing_opened_file_fatal_witness :
    build_context fsW apiWMissingOpened =
      Except.error (Err.fileNotFoundError (File.make "gone.py" "repo").fs_path) ∧
    extension fsW [] apiWMissingOpened ⟨[]⟩ =
      ⟨[], ⟨[]⟩, none,
        some (Err.fileNotFoundError (File.make "gone.py" "repo").fs_path)⟩ :=
  C8_missing_opened_file_fatal fsW apiWMissingOpened
    [File.make "util.py" "repo"] (File.make "gone.py" "repo") [] [] ⟨[]⟩
    rfl (by decide) rfl

/-- Claim C9: the emitted event sequence of the streaming bridge is a
deterministic function of the input delta sequence alone — it does not
depend on the api state, and equals the pure `streamEvents` of the input
followed by the terminate event, so two runs on the same input agree. -/
theorem C9_stream_deterministic :
    ∀ (model : String) (chunks : List Chunk) (s₁ s₂ : ApiState),
      (call_llm model chunks s₁).1 = (call_llm model chunks s₂).1 ∧
      (call_llm model chunks s₁).1 =
        streamEvents model false chunks ++ [Event.terminateChat] := by
  intro model chunks s₁ s₂
  rw [call_llm_eq, call_llm_eq]
  exact ⟨rfl, rfl⟩

/-- Claim C10: with `terminal_snapshot` loaded as `None`, the entry point
fails with the `TypeError` of the unconditional join, after the two context
metadata events and the first two log events but with no model request. -/
theorem C10_terminal_snapshot_type_error :
    ∀ (fs : String → Option String) (stream : List Chunk)
      (api : ExtensionAPI) (s : ApiState) (evts : List Event)
      (secs : List String) (ctx : String),
      api.terminal_snapshot = none →
      build_context fs api = Except.ok (evts, secs, ctx) →
      extension fs stream api s =
        ⟨evts ++ [Event.log ("messages " ++
            toString (extensionMessages theModel api ctx).length),
          Event.log ("prompt " ++ api.prompt)], s, none,
          some (Err.typeError "can only join an iterable")⟩ ∧
      evts = [Event.pushChat (openedFilesMeta api),
              Event.pushChat (currentFileMeta api)] := by
  intro fs stream api s evts secs ctx hts hbc
  refine ⟨?_, (build_context_ok fs api evts secs ctx hbc).1⟩
  simp [extension, hbc, hts]

theorem C10_terminal_snapshot_type_error_witness :
    extension fsW [] apiWNoTerminal ⟨[]⟩ =
      ⟨bcWNoTerminal.1 ++ [Event.log ("messages " ++
          toString (extensionMessages theModel apiWNoTerminal
            bcWNoTerminal.2.2).length),
        Event.log ("prompt " ++ apiWNoTerminal.prompt)], ⟨[]⟩, none,
        some (Err.typeError "can only join an iterable")⟩ ∧
    bcWNoTerminal.1 = [Event.pushChat (openedFilesMeta apiWNoTerminal),
      Event.pushChat (currentFileMeta apiWNoTerminal)] :=
  C10_terminal_snapshot_type_error fsW [] apiWNoTerminal ⟨[]⟩
    bcWNoTerminal.1 bcWNoTerminal.2.1 bcWNoTerminal.2.2 rfl rfl

end AiEditor
